import Mathlib

set_option maxHeartbeats 1000000
set_option maxRecDepth 8000

/-!
Shallow embedding of the `ida-hcli` repository's two core modules:

* `src/hcli/lib/ida/python.py` — embedded-interpreter discovery and pip bridge.
* `src/hcli/lib/ida/protocol.py` — per-platform protocol handler registration.

Side-effecting collaborators (subprocess execution, the filesystem, the
Windows registry) are modelled as explicit oracle functions and state
records that the embedded functions consume and transform.
-/

/-! ## String helpers embedding Python primitives -/

/-- Embedding of Python's substring test `needle in hay`. -/
def strContains (hay needle : String) : Bool :=
  decide (needle.data <:+: hay.data)

/-- Embedding of Python's `str.lower()`: character-wise lowercasing. -/
def strLower (s : String) : String :=
  ⟨s.data.map Char.toLower⟩

/-- Python truthiness of an optional string (`if s:`): not None and non-empty. -/
def truthyStr : Option String → Bool
  | none => false
  | some s => !(s == "")

/-- Embedding of Python's `x or y` on optional strings: `y` when `x` is falsy. -/
def py_or_str (a b : Option String) : Option String :=
  if truthyStr a then a else b

/-- Embedding of `posixpath.join` for two components, as used by the injected
discovery script (`os.path.join`). -/
def path_join (a b : String) : String :=
  if b.startsWith "/" then b
  else if a == "" || a.endsWith "/" then a ++ b
  else a ++ "/" ++ b

/-- Embedding of `os.path.basename`: the component after the last slash. -/
def path_basename (s : String) : String :=
  (s.splitOn "/").getLastD ""

/-! ## `python.py`: Windows Store shim detection -/

/-- Embeds `is_windows_store_shim` from `src/hcli/lib/ida/python.py`:
`None` is not a shim; otherwise lowercase the path and look for the
`microsoft\windowsapps` substring with either slash direction. -/
def is_windows_store_shim : Option String → Bool
  | none => false
  | some path =>
    let lowered := strLower path
    strContains lowered "microsoft\\windowsapps" || strContains lowered "microsoft/windowsapps"

/-! ## `python.py`: the injected discovery script `FIND_PYTHON_PY`

The script runs inside the host application's embedded interpreter.  Its
observable environment (interpreter-reported executable, installation
prefix, platform tag, file-existence tests and `shutil.which` lookups) is
a record of oracle functions. -/

/-- Observable environment of the injected discovery script. -/
structure PyProbeEnv where
  /-- `sys.executable` as reported by the embedded interpreter. -/
  sys_executable : Option String
  /-- `sys.prefix`, the installation root of the interpreter. -/
  sys_prefix_str : String
  /-- `sys.platform` (`"win32"` on Windows-like systems). -/
  sys_platform : String
  /-- `os.path.isfile` oracle. -/
  isfile : String → Bool
  /-- `shutil.which` oracle. -/
  which : String → Option String

/-- Embeds `find_python_from_prefix` of the injected script: empty prefix
yields nothing; on `win32` try `<prefix>/python.exe` first; then (on any
platform) `<prefix>/bin/python3` and `<prefix>/bin/python`, returning the
first that is a file. -/
def find_python_from_prefix_dir (env : PyProbeEnv) : Option String :=
  if env.sys_prefix_str == "" then none
  else if env.sys_platform == "win32" && env.isfile (path_join env.sys_prefix_str "python.exe") then
    some (path_join env.sys_prefix_str "python.exe")
  else if env.isfile (path_join (path_join env.sys_prefix_str "bin") "python3") then
    some (path_join (path_join env.sys_prefix_str "bin") "python3")
  else if env.isfile (path_join (path_join env.sys_prefix_str "bin") "python") then
    some (path_join (path_join env.sys_prefix_str "bin") "python")
  else none

/-- Steps 3 and 4 of `find_python_executable` of the injected script:
accept the first of `shutil.which("python3")`/`shutil.which("python")`
that is truthy and not a Store shim, else fall back to
`shutil.which("python3") or shutil.which("python")` even if a shim. -/
def find_python_which_fallback (env : PyProbeEnv) : Option String :=
  let c3 := env.which "python3"
  if truthyStr c3 && !(is_windows_store_shim c3) then c3
  else
    let c := env.which "python"
    if truthyStr c && !(is_windows_store_shim c) then c
    else py_or_str (env.which "python3") (env.which "python")

/-- Embeds the body of `find_python_executable` of the injected script
(steps 3 and 4 — the `shutil.which` loop plus the last-resort fallback —
are `find_python_which_fallback` above). -/
def find_python_executable (env : PyProbeEnv) : Option String :=
  if truthyStr env.sys_executable
      && strContains (strLower (path_basename (env.sys_executable.getD ""))) "python"
      && !(is_windows_store_shim env.sys_executable) then
    env.sys_executable
  else
    match find_python_from_prefix_dir env with
    | some p =>
      if !(p == "") && !(is_windows_store_shim (some p)) then some p
      else find_python_which_fallback env
    | none => find_python_which_fallback env

/-! Spec-side candidate chain for the discovery script, written from the
specification's four ordered clauses (a)–(d); compared against
`find_python_executable` by the ordering theorem below. -/

/-- Spec clause (a): the interpreter's reported executable path, when its
filename contains "python" and it is not a Windows Store shim. -/
def spec_candidate_a (env : PyProbeEnv) : Option String :=
  match env.sys_executable with
  | some e =>
    if !(e == "") && strContains (strLower (path_basename e)) "python"
        && !(is_windows_store_shim (some e)) then some e
    else none
  | none => none

/-- Spec clause (b): the path built from the installation prefix
(`<prefix>/python.exe` on Windows, else `<prefix>/bin/python3` then
`<prefix>/bin/python`) that exists, rejected when it is a Store shim. -/
def spec_candidate_b (env : PyProbeEnv) : Option String :=
  match find_python_from_prefix_dir env with
  | some p => if !(p == "") && !(is_windows_store_shim (some p)) then some p else none
  | none => none

/-- Spec clause (c): the first of `python3`/`python` found on the search
path that is not a Store shim. -/
def spec_candidate_c (env : PyProbeEnv) : Option String :=
  if truthyStr (env.which "python3") && !(is_windows_store_shim (env.which "python3")) then
    env.which "python3"
  else if truthyStr (env.which "python") && !(is_windows_store_shim (env.which "python")) then
    env.which "python"
  else none

/-- Spec clause (d): as last resort, the first of `python3`/`python` found
on the search path even if it is a shim. -/
def spec_candidate_d (env : PyProbeEnv) : Option String :=
  py_or_str (env.which "python3") (env.which "python")

/-! ## `python.py`: `find_current_python_executable` -/

/-- The three sources consulted by `find_current_python_executable`:
the `HCLI_CURRENT_IDA_PYTHON_EXE` environment variable, the cached
`ENV.HCLI_CURRENT_IDA_PYTHON_EXE` configuration value, and the result of
injecting `FIND_PYTHON_PY` via `run_py_in_current_idapython` (which either
returns a path or raises `RuntimeError`, modelled as `Except`). -/
structure IdaPythonEnv where
  env_var : Option String
  env_cached : Option String
  run_py : Except String String

/-- Embeds `find_current_python_executable`: the environment variable wins
when truthy; else a non-None cached value wins; else live discovery runs
(second component records whether discovery was invoked), wrapping a
discovery failure in a fresh `RuntimeError`. -/
def find_current_python_executable (s : IdaPythonEnv) : Except String String × Bool :=
  if truthyStr s.env_var then (Except.ok (s.env_var.getD ""), false)
  else
    match s.env_cached with
    | some c => (Except.ok c, false)
    | none =>
      match s.run_py with
      | Except.ok exe => (Except.ok exe, true)
      | Except.error _ =>
        (Except.error "failed to determine current IDA Python interpreter", true)

/-! ## `python.py`: pip bridge over a subprocess oracle -/

/-- Result of a completed `subprocess.run` call: exit status and captured,
decoded standard output and standard error. -/
structure CompletedProcess where
  returncode : Int
  stdout : String
  stderr : String
deriving DecidableEq

/-- The errors the pip bridge can raise: the dedicated conflict error
`CantInstallPackagesError` (a `ValueError` carrying the captured standard
output) and the generic `subprocess.CalledProcessError` (carrying only the
exit status and the command). -/
inductive PipError
  | CantInstallPackagesError (msg : String)
  | CalledProcessError (returncode : Int) (cmd : List String)
deriving DecidableEq

/-- Embeds `verify_pip_can_install_packages`: run
`<exe> -m pip install --dry-run <packages...>`; nonzero exit raises
`CantInstallPackagesError` with the decoded standard output. -/
def verify_pip_can_install_packages (run : List String → CompletedProcess)
    (python_exe : String) (packages : List String) : Except PipError Unit :=
  let process := run ([python_exe, "-m", "pip", "install", "--dry-run"] ++ packages)
  if process.returncode ≠ 0 then
    Except.error (PipError.CantInstallPackagesError process.stdout)
  else
    Except.ok ()

/-- Embeds `pip_install_packages`: same contract as the dry-run check but
without `--dry-run`. -/
def pip_install_packages (run : List String → CompletedProcess)
    (python_exe : String) (packages : List String) : Except PipError Unit :=
  let process := run ([python_exe, "-m", "pip", "install"] ++ packages)
  if process.returncode ≠ 0 then
    Except.error (PipError.CantInstallPackagesError process.stdout)
  else
    Except.ok ()

/-- Embeds `pip_freeze`: run `<exe> -m pip freeze`; on success return the
decoded standard output, on nonzero exit raise the generic
`subprocess.CalledProcessError` (no captured text). -/
def pip_freeze (run : List String → CompletedProcess)
    (python_exe : String) : Except PipError String :=
  let cmd := [python_exe, "-m", "pip", "freeze"]
  let process := run cmd
  if process.returncode ≠ 0 then
    Except.error (PipError.CalledProcessError process.returncode cmd)
  else
    Except.ok process.stdout

/-- Outcome of a `subprocess.run` call executed under a timeout: it either
completes (with any exit status), or aborts with `subprocess.TimeoutExpired`,
`FileNotFoundError`, or another `OSError`. -/
inductive RunOutcome
  | completed (process : CompletedProcess)
  | timedOut
  | fileNotFound
  | osFailure
deriving DecidableEq

/-- Embeds `does_current_ida_have_pip`: run `<exe> -m pip help` with a
10-second timeout; true exactly on clean zero-exit completion, false on any
timeout, missing executable or OS-level launch failure (total — the Python
code catches those exceptions and never raises). -/
def does_current_ida_have_pip (run : List String → Nat → RunOutcome)
    (python_exe : String) : Bool :=
  match run [python_exe, "-m", "pip", "help"] 10 with
  | RunOutcome.completed p => p.returncode == 0
  | RunOutcome.timedOut => false
  | RunOutcome.fileNotFound => false
  | RunOutcome.osFailure => false

/-! ## `protocol.py`: protocol handler registration state machines

Every handler operation is embedded as a transformer of an explicit
platform-state record.  External, deterministic collaborators (the
`osacompile` output, this tool's executable path) are inputs; purely
informational side effects (console printing, `lsregister`, non-critical
desktop-database refreshes) are not part of the artifact state. -/

/-- `PROTOCOL` constant of `protocol.py`. -/
def PROTOCOL : String := "ida"

/-- The `<key>CFBundleURLTypes</key>` marker whose presence gates the
macOS plist patch. -/
def url_types_key : String := "<key>CFBundleURLTypes</key>"

/-- The XML fragment inserted into the bundle plist (the `url_scheme_xml`
f-string of `setup_macos_protocol_handler`). -/
def url_scheme_xml : String :=
  "\n        <key>CFBundleURLTypes</key>\n        <array>\n            <dict>\n                <key>CFBundleURLName</key>\n                <string>IDB URL Handler</string>\n                <key>CFBundleURLSchemes</key>\n                <array>\n                    <string>" ++ PROTOCOL ++ "</string>\n                </array>\n            </dict>\n        </array>\n        <key>LSUIElement</key>\n        <true/>"

/-- The plist patch of `setup_macos_protocol_handler`: insert the URL-scheme
declaration before the closing `</dict></plist>` only when the
`CFBundleURLTypes` key is not already present. -/
def patch_plist (plist_content : String) : String :=
  if strContains plist_content url_types_key then plist_content
  else plist_content.replace "</dict>\n</plist>" (url_scheme_xml ++ "\n</dict>\n</plist>")

/-- macOS artifact state: the handler bundle at
`~/Applications/HCLIHandler.app`, present with its `Info.plist` content or
absent. -/
structure MacBundleState where
  infoPlist : Option String
deriving DecidableEq

/-- Embeds `setup_macos_protocol_handler`: `osacompile -o` (re)creates the
bundle, producing a fresh base `Info.plist` (`osacompile_plist`, a
deterministic function of the compiled AppleScript); the plist is then
patched via `patch_plist` and the bundle registered with Launch Services
(an external index notification, not artifact state). -/
def setup_macos_protocol_handler (osacompile_plist : String)
    (_st : MacBundleState) : MacBundleState :=
  { infoPlist := some (patch_plist osacompile_plist) }

/-- Informational outcome reported by the unregister operations. -/
inductive UnregisterOutcome
  | removed
  | notFound
deriving DecidableEq

/-- Embeds `unregister_macos_protocol_handler`: a missing bundle reports
"not found (already removed)" and mutates nothing; otherwise the bundle
directory is deleted. -/
def unregister_macos_protocol_handler (st : MacBundleState) :
    MacBundleState × UnregisterOutcome :=
  match st.infoPlist with
  | none => (st, UnregisterOutcome.notFound)
  | some _ => ({ infoPlist := none }, UnregisterOutcome.removed)

/-- The per-user Windows registry, modelled extensionally: which key paths
exist and which named values each key path holds. -/
structure Registry where
  hasKey : String → Bool
  value : String → String → Option String

/-- `winreg.CreateKey`: ensure the key path exists (a no-op when present —
registry keys are a set, not a multiset). -/
def Registry.createKey (r : Registry) (k : String) : Registry :=
  { r with hasKey := fun q => q == k || r.hasKey q }

/-- `winreg.SetValueEx` (REG_SZ): set the named value under the key,
replacing any prior value. -/
def Registry.setValueEx (r : Registry) (k name v : String) : Registry :=
  { r with value := fun q n => if q == k && n == name then some v else r.value q n }

/-- `winreg.DeleteKeyEx`: delete the key, or fail with `FileNotFoundError`
when it does not exist.  (The code deletes leaf-to-root, so the
subkeys-must-be-gone-first constraint of the real API never fires.) -/
def Registry.deleteKeyEx (r : Registry) (k : String) : Except Unit Registry :=
  if r.hasKey k then
    Except.ok
      { hasKey := fun q => if q == k then false else r.hasKey q,
        value := fun q n => if q == k then none else r.value q n }
  else
    Except.error ()

/-- The `SOFTWARE\Classes\ida` registry key. -/
def win_reg_key : String := "SOFTWARE\\Classes\\" ++ PROTOCOL

/-- Embeds `setup_windows_protocol_handler`: write the fixed tree of keys
and values under `HKCU\SOFTWARE\Classes\ida`. -/
def setup_windows_protocol_handler (hcli_path : String) (r : Registry) : Registry :=
  let command := "\"" ++ hcli_path ++ "\" ida open \"%1\""
  let r1 := ((r.createKey win_reg_key).setValueEx win_reg_key ""
      ("URL:" ++ PROTOCOL.toUpper ++ " Protocol")).setValueEx win_reg_key "URL Protocol" ""
  let r2 := (r1.createKey (win_reg_key ++ "\\DefaultIcon")).setValueEx
      (win_reg_key ++ "\\DefaultIcon") "" (hcli_path ++ ",1")
  let r3 := r2.createKey (win_reg_key ++ "\\shell")
  let r4 := r3.createKey (win_reg_key ++ "\\shell\\open")
  (r4.createKey (win_reg_key ++ "\\shell\\open\\command")).setValueEx
      (win_reg_key ++ "\\shell\\open\\command") "" command

/-- The fixed leaf-to-root deletion order of
`unregister_windows_protocol_handler`. -/
def win_delete_sequence : List String :=
  [win_reg_key ++ "\\shell\\open\\command",
   win_reg_key ++ "\\shell\\open",
   win_reg_key ++ "\\shell",
   win_reg_key ++ "\\DefaultIcon",
   win_reg_key]

/-- The `try:` block around the five `DeleteKeyEx` calls: delete keys in
order until one raises `FileNotFoundError`; the exception aborts the rest,
keeping whatever was already deleted, and leaves `removed` False. -/
def deleteKeysUntilMissing (r : Registry) : List String → Registry × Bool
  | [] => (r, true)
  | k :: ks =>
    match r.deleteKeyEx k with
    | Except.error _ => (r, false)
    | Except.ok r2 => deleteKeysUntilMissing r2 ks

/-- Embeds `unregister_windows_protocol_handler`: run the deletion sequence;
report removal only when every deletion succeeded, else the informational
"not found (already removed)" outcome. -/
def unregister_windows_protocol_handler (r : Registry) : Registry × UnregisterOutcome :=
  let res := deleteKeysUntilMissing r win_delete_sequence
  (res.1, if res.2 then UnregisterOutcome.removed else UnregisterOutcome.notFound)

/-- Linux artifact state: the desktop-entry file at
`~/.local/share/applications/hcli-idb-handler.desktop` (content and mode)
and the MIME default association for `x-scheme-handler/ida`. -/
structure LinuxDesktopState where
  desktopFile : Option String
  fileMode : Option Nat
  mimeDefault : Option String
deriving DecidableEq

/-- The desktop-entry content written by `setup_linux_protocol_handler`. -/
def desktop_content (hcli_path : String) : String :=
  "[Desktop Entry]\nName=HCLI IDB Link Handler\nExec=" ++ hcli_path
    ++ " ida open %u\nType=Application\nNoDisplay=true\nMimeType=x-scheme-handler/"
    ++ PROTOCOL ++ ";\n"

/-- Embeds `setup_linux_protocol_handler`: write the desktop entry, chmod it
to 0o755, and set the MIME default via `xdg-mime` (the desktop-database
refresh is non-critical and not artifact state). -/
def setup_linux_protocol_handler (hcli_path : String)
    (_st : LinuxDesktopState) : LinuxDesktopState :=
  { desktopFile := some (desktop_content hcli_path),
    fileMode := some 0o755,
    mimeDefault := some "hcli-idb-handler.desktop" }

/-- Embeds `unregister_linux_protocol_handler`: a missing desktop entry
reports "not found (already removed)" and mutates nothing; otherwise the
file is unlinked and the MIME default cleared. -/
def unregister_linux_protocol_handler (st : LinuxDesktopState) :
    LinuxDesktopState × UnregisterOutcome :=
  match st.desktopFile with
  | none => (st, UnregisterOutcome.notFound)
  | some _ =>
    ({ desktopFile := none, fileMode := none, mimeDefault := some "" },
      UnregisterOutcome.removed)

/-! ## Theorems -/

/-- Auxiliary: unfolding `strLower` at the data level. -/
theorem strLower_data (s : String) : (strLower s).data = s.data.map Char.toLower := rfl

/-- C6: `is_windows_store_shim` returns true exactly for paths containing
`microsoft\windowsapps` or `microsoft/windowsapps` case-insensitively
(witnessed by a contiguous run of characters lowercasing to the marker),
including the claim's three positive examples; it returns false for paths
without the marker and for the `None` input. -/
theorem is_windows_store_shim_characterization :
    ∀ p : String,
      (is_windows_store_shim (some p) = true
        ↔ ((∃ mid, mid <:+: p.data ∧ mid.map Char.toLower = "microsoft\\windowsapps".data)
          ∨ (∃ mid, mid <:+: p.data ∧ mid.map Char.toLower = "microsoft/windowsapps".data)))
    ∧ is_windows_store_shim none = false
    ∧ is_windows_store_shim (some "C:\\Users\\U\\AppData\\Local\\Microsoft\\WindowsApps\\python3.exe") = true
    ∧ is_windows_store_shim (some "C:\\USERS\\U\\APPDATA\\LOCAL\\MICROSOFT\\WINDOWSAPPS\\PYTHON3.EXE") = true
    ∧ is_windows_store_shim (some "C:/Users/U/AppData/Local/Microsoft/WindowsApps/python3.exe") = true
    ∧ is_windows_store_shim (some "/usr/bin/python3") = false
    ∧ is_windows_store_shim (some "C:\\Python312\\python.exe") = false := by
  refine fun p => ⟨?_, rfl, by decide, by decide, by decide, by decide, by decide⟩
  simp only [is_windows_store_shim, strContains, Bool.or_eq_true, decide_eq_true_eq]
  rw [strLower_data, List.isInfix_map_iff, List.isInfix_map_iff]
  constructor
  · rintro (⟨l, hl, he⟩ | ⟨l, hl, he⟩)
    · exact Or.inl ⟨l, hl, he.symm⟩
    · exact Or.inr ⟨l, hl, he.symm⟩
  · rintro (⟨l, hl, he⟩ | ⟨l, hl, he⟩)
    · exact Or.inl ⟨l, hl, he.symm⟩
    · exact Or.inr ⟨l, hl, he.symm⟩

/-- C3: `find_current_python_executable` resolves environment override,
then cached configuration, then live discovery, short-circuiting at the
first source that yields a value; a non-empty environment override is
returned verbatim with discovery never invoked (second component false). -/
theorem find_current_python_executable_resolution_order :
    ∀ s : IdaPythonEnv,
      (∀ exe, s.env_var = some exe → exe ≠ "" →
        find_current_python_executable s = (Except.ok exe, false))
    ∧ (truthyStr s.env_var = false → ∀ c, s.env_cached = some c →
        find_current_python_executable s = (Except.ok c, false))
    ∧ (truthyStr s.env_var = false → s.env_cached = none →
        ∀ p, s.run_py = Except.ok p →
          find_current_python_executable s = (Except.ok p, true)) := by
  intro s
  refine ⟨?_, ?_, ?_⟩
  · intro exe hv hne
    have ht : truthyStr (some exe) = true := by simpa [truthyStr] using hne
    simp [find_current_python_executable, hv, ht]
  · intro hf c hc
    simp [find_current_python_executable, hf, hc]
  · intro hf hc p hp
    simp [find_current_python_executable, hf, hc, hp]

/-- C3 witness: the three resolution branches at concrete environments. -/
theorem find_current_python_executable_resolution_order_witness :
    find_current_python_executable
        ⟨some "/opt/ida/python3", some "/cfg/python3", Except.error "no instance"⟩
      = (Except.ok "/opt/ida/python3", false)
    ∧ find_current_python_executable ⟨none, some "/cfg/python3", Except.error "no instance"⟩
      = (Except.ok "/cfg/python3", false)
    ∧ find_current_python_executable ⟨none, none, Except.ok "/live/python3"⟩
      = (Except.ok "/live/python3", true) :=
  ⟨(find_current_python_executable_resolution_order
      ⟨some "/opt/ida/python3", some "/cfg/python3", Except.error "no instance"⟩).1
      "/opt/ida/python3" rfl (by decide),
   (find_current_python_executable_resolution_order
      ⟨none, some "/cfg/python3", Except.error "no instance"⟩).2.1 rfl "/cfg/python3" rfl,
   (find_current_python_executable_resolution_order
      ⟨none, none, Except.ok "/live/python3"⟩).2.2 rfl rfl "/live/python3" rfl⟩

/-- C10: an environment override set to the empty string is treated like an
unset override — resolution falls through to the cached value and then to
live discovery, exactly as when the variable is absent. -/
theorem empty_env_override_falls_through :
    ∀ s : IdaPythonEnv, s.env_var = some "" →
      find_current_python_executable s
        = find_current_python_executable { s with env_var := none } := by
  intro s hv
  simp [find_current_python_executable, hv, truthyStr]

/-- C10 witness: the empty override at a concrete environment. -/
theorem empty_env_override_falls_through_witness :
    find_current_python_executable ⟨some "", some "/cached/pythonexe", Except.error "down"⟩
      = find_current_python_executable ⟨none, some "/cached/pythonexe", Except.error "down"⟩ :=
  empty_env_override_falls_through _ rfl

/-- C4: `verify_pip_can_install_packages` returns normally exactly when the
dry-run pip invocation exits zero; on nonzero exit it raises the dedicated
`CantInstallPackagesError` — a different error from the generic
`CalledProcessError` — whose message is the captured standard output. -/
theorem verify_pip_conflict_error_contract :
    ∀ (run : List String → CompletedProcess) (python_exe : String) (packages : List String),
      (verify_pip_can_install_packages run python_exe packages = Except.ok ()
        ↔ (run ([python_exe, "-m", "pip", "install", "--dry-run"] ++ packages)).returncode = 0)
    ∧ ((run ([python_exe, "-m", "pip", "install", "--dry-run"] ++ packages)).returncode ≠ 0 →
        verify_pip_can_install_packages run python_exe packages
          = Except.error (PipError.CantInstallPackagesError
              (run ([python_exe, "-m", "pip", "install", "--dry-run"] ++ packages)).stdout))
    ∧ (∀ msg rc cmd, PipError.CantInstallPackagesError msg ≠ PipError.CalledProcessError rc cmd) := by
  intro run python_exe packages
  refine ⟨?_, ?_, fun msg rc cmd h => nomatch h⟩
  · by_cases h : (run ([python_exe, "-m", "pip", "install", "--dry-run"] ++ packages)).returncode = 0 <;>
      simp [verify_pip_can_install_packages, h]
  · intro h
    have h2 : (run (python_exe :: "-m" :: "pip" :: "install" :: "--dry-run" :: packages)).returncode
        ≠ 0 := by simpa using h
    simp [verify_pip_can_install_packages, h2]

/-- C4 witness: a failing dry run raises the conflict error carrying the
captured output; a clean dry run returns normally. -/
theorem verify_pip_conflict_error_contract_witness :
    verify_pip_can_install_packages (fun _ => ⟨1, "ERROR: ResolutionImpossible", ""⟩)
        "/ida/python3" ["flare-capa==v1.0.0", "flare-capa==v1.0.1"]
      = Except.error (PipError.CantInstallPackagesError "ERROR: ResolutionImpossible")
    ∧ verify_pip_can_install_packages (fun _ => ⟨0, "Would install flare-capa", ""⟩)
        "/ida/python3" ["flare-capa"]
      = Except.ok () :=
  ⟨(verify_pip_conflict_error_contract (fun _ => ⟨1, "ERROR: ResolutionImpossible", ""⟩)
      "/ida/python3" ["flare-capa==v1.0.0", "flare-capa==v1.0.1"]).2.1 (by decide),
   (verify_pip_conflict_error_contract (fun _ => ⟨0, "Would install flare-capa", ""⟩)
      "/ida/python3" ["flare-capa"]).1.mpr rfl⟩

/-- C5: `does_current_ida_have_pip` never raises (it is a total Boolean
function of the bounded-timeout run outcome): true exactly when the `pip
help` probe completes with exit code zero within the 10-second timeout,
false on timeout, missing executable, or OS-level launch failure. -/
theorem does_current_ida_have_pip_total_contract :
    ∀ (run : List String → Nat → RunOutcome) (python_exe : String),
      (does_current_ida_have_pip run python_exe = true
        ↔ ∃ p : CompletedProcess,
            run [python_exe, "-m", "pip", "help"] 10 = RunOutcome.completed p
            ∧ p.returncode = 0)
    ∧ (run [python_exe, "-m", "pip", "help"] 10 = RunOutcome.timedOut
        ∨ run [python_exe, "-m", "pip", "help"] 10 = RunOutcome.fileNotFound
        ∨ run [python_exe, "-m", "pip", "help"] 10 = RunOutcome.osFailure →
        does_current_ida_have_pip run python_exe = false) := by
  intro run python_exe
  constructor
  · unfold does_current_ida_have_pip
    cases hr : run [python_exe, "-m", "pip", "help"] 10 with
    | completed p => simp
    | timedOut => simp
    | fileNotFound => simp
    | osFailure => simp
  · intro h
    unfold does_current_ida_have_pip
    rcases h with h | h | h <;> rw [h]

/-- C5 witness: a nonexistent executable (launch fails with
`FileNotFoundError`) yields false. -/
theorem does_current_ida_have_pip_total_contract_witness :
    does_current_ida_have_pip (fun _ _ => RunOutcome.fileNotFound) "/nonexistent/python3" = false :=
  (does_current_ida_have_pip_total_contract (fun _ _ => RunOutcome.fileNotFound)
    "/nonexistent/python3").2 (Or.inr (Or.inl rfl))

/-- C8: `pip_freeze` returns the captured standard output on zero exit; on
nonzero exit it raises the generic `CalledProcessError` (carrying only the
exit status and command, no captured output text), never the dedicated
conflict error. -/
theorem pip_freeze_contract :
    ∀ (run : List String → CompletedProcess) (python_exe : String),
      ((run [python_exe, "-m", "pip", "freeze"]).returncode = 0 →
        pip_freeze run python_exe
          = Except.ok (run [python_exe, "-m", "pip", "freeze"]).stdout)
    ∧ ((run [python_exe, "-m", "pip", "freeze"]).returncode ≠ 0 →
        pip_freeze run python_exe
          = Except.error (PipError.CalledProcessError
              (run [python_exe, "-m", "pip", "freeze"]).returncode
              [python_exe, "-m", "pip", "freeze"])
        ∧ ∀ msg, pip_freeze run python_exe
            ≠ Except.error (PipError.CantInstallPackagesError msg)) := by
  intro run python_exe
  constructor
  · intro h; simp [pip_freeze, h]
  · intro h
    refine ⟨by simp [pip_freeze, h], fun msg hcon => ?_⟩
    simp [pip_freeze, h] at hcon

/-- C8 witness: both exit paths at concrete subprocess results. -/
theorem pip_freeze_contract_witness :
    pip_freeze (fun _ => ⟨0, "flare-capa==1.0.0", ""⟩) "/ida/python3"
      = Except.ok "flare-capa==1.0.0"
    ∧ pip_freeze (fun _ => ⟨2, "", "boom"⟩) "/ida/python3"
      = Except.error (PipError.CalledProcessError 2 ["/ida/python3", "-m", "pip", "freeze"]) :=
  ⟨(pip_freeze_contract (fun _ => ⟨0, "flare-capa==1.0.0", ""⟩) "/ida/python3").1 rfl,
   ((pip_freeze_contract (fun _ => ⟨2, "", "boom"⟩) "/ida/python3").2 (by decide)).1⟩

/-- C2: on every platform, unregistering when no handler artifact exists
(bundle absent, registry subtree absent, desktop entry absent) reports the
informational "not found (already removed)" outcome and performs no
filesystem or registry mutation. -/
theorem unregister_absent_no_mutation :
    ∀ (m : MacBundleState) (r : Registry) (l : LinuxDesktopState),
      (m.infoPlist = none →
        unregister_macos_protocol_handler m = (m, UnregisterOutcome.notFound))
    ∧ ((∀ k ∈ win_delete_sequence, r.hasKey k = false) →
        unregister_windows_protocol_handler r = (r, UnregisterOutcome.notFound))
    ∧ (l.desktopFile = none →
        unregister_linux_protocol_handler l = (l, UnregisterOutcome.notFound)) := by
  intro m r l
  refine ⟨?_, ?_, ?_⟩
  · intro h
    cases m with
    | mk ip => cases h; rfl
  · intro h
    have h5 : r.hasKey (win_reg_key ++ "\\shell\\open\\command") = false :=
      h _ (by simp [win_delete_sequence])
    simp [unregister_windows_protocol_handler, win_delete_sequence, deleteKeysUntilMissing,
      Registry.deleteKeyEx, h5]
  · intro h
    cases l with
    | mk d fm md => cases h; rfl

/-- C2 witness: empty platform states. -/
theorem unregister_absent_no_mutation_witness :
    unregister_macos_protocol_handler ⟨none⟩ = (⟨none⟩, UnregisterOutcome.notFound)
    ∧ unregister_windows_protocol_handler ⟨fun _ => false, fun _ _ => none⟩
      = (⟨fun _ => false, fun _ _ => none⟩, UnregisterOutcome.notFound)
    ∧ unregister_linux_protocol_handler ⟨none, none, none⟩
      = (⟨none, none, none⟩, UnregisterOutcome.notFound) :=
  ⟨(unregister_absent_no_mutation ⟨none⟩ ⟨fun _ => false, fun _ _ => none⟩ ⟨none, none, none⟩).1 rfl,
   (unregister_absent_no_mutation ⟨none⟩ ⟨fun _ => false, fun _ _ => none⟩ ⟨none, none, none⟩).2.1
     (fun _ _ => rfl),
   (unregister_absent_no_mutation ⟨none⟩ ⟨fun _ => false, fun _ _ => none⟩ ⟨none, none, none⟩).2.2 rfl⟩

/-- Auxiliary extensionality for the extensional registry model. -/
theorem Registry.ext {r s : Registry}
    (h1 : r.hasKey = s.hasKey) (h2 : r.value = s.value) : r = s := by
  cases r; cases s; cases h1; cases h2; rfl

/-- C1: on every platform, registering when already registered succeeds and
produces the same final artifact state as a single `register()` — the second
run updates the bundle plist, registry values, and desktop-entry file in
place without duplicating entries; in particular the macOS patch adds the
`CFBundleURLTypes` declaration only when it is not already present. -/
theorem register_idempotent_on_all_platforms :
    ∀ (osacompile_plist hcli_path : String) (m : MacBundleState) (r : Registry)
      (l : LinuxDesktopState),
      setup_macos_protocol_handler osacompile_plist
          (setup_macos_protocol_handler osacompile_plist m)
        = setup_macos_protocol_handler osacompile_plist m
    ∧ setup_windows_protocol_handler hcli_path (setup_windows_protocol_handler hcli_path r)
        = setup_windows_protocol_handler hcli_path r
    ∧ setup_linux_protocol_handler hcli_path (setup_linux_protocol_handler hcli_path l)
        = setup_linux_protocol_handler hcli_path l
    ∧ (∀ plist_content, strContains plist_content url_types_key = true →
        patch_plist plist_content = plist_content) := by
  intro osa hcli m r l
  refine ⟨rfl, ?_, rfl, ?_⟩
  · apply Registry.ext
    · funext q
      simp only [setup_windows_protocol_handler, Registry.createKey, Registry.setValueEx]
      by_cases b5 : (q == win_reg_key ++ "\\shell\\open\\command") = true <;>
        by_cases b4 : (q == win_reg_key ++ "\\shell\\open") = true <;>
          by_cases b3 : (q == win_reg_key ++ "\\shell") = true <;>
            by_cases b2 : (q == win_reg_key ++ "\\DefaultIcon") = true <;>
              by_cases b1 : (q == win_reg_key) = true <;>
                simp [b5, b4, b3, b2, b1]
    · funext q n
      simp only [setup_windows_protocol_handler, Registry.createKey, Registry.setValueEx]
      by_cases c4 : (q == win_reg_key ++ "\\shell\\open\\command" && n == "") = true <;>
        by_cases c3 : (q == win_reg_key ++ "\\DefaultIcon" && n == "") = true <;>
          by_cases c2 : (q == win_reg_key && n == "URL Protocol") = true <;>
            by_cases c1 : (q == win_reg_key && n == "") = true <;>
              simp [c4, c3, c2, c1]
  · intro pc h
    simp [patch_plist, h]

/-- C1 witness: the plist patch leaves a plist that already declares
`CFBundleURLTypes` unchanged. -/
theorem register_idempotent_on_all_platforms_witness :
    patch_plist "<dict>\n<key>CFBundleURLTypes</key>\n</dict>\n</plist>"
      = "<dict>\n<key>CFBundleURLTypes</key>\n</dict>\n</plist>" :=
  (register_idempotent_on_all_platforms "" "" ⟨none⟩
      ⟨fun _ => false, fun _ _ => none⟩ ⟨none, none, none⟩).2.2.2
    "<dict>\n<key>CFBundleURLTypes</key>\n</dict>\n</plist>" (by decide)

/-- Auxiliary: membership of an indexed element. -/
theorem get_mem_of_lt {α : Type} (l : List α) (j : Nat) (hj : j < l.length) :
    l.get ⟨j, hj⟩ ∈ l := List.get_mem l j hj

/-- Auxiliary: running the deletion loop over pairwise-distinct keys where
the key at index `i` is the first missing one deletes exactly the keys
before `i`, leaves everything else untouched, and reports failure. -/
theorem deleteKeysUntilMissing_first_missing :
    ∀ (ks : List String) (r : Registry) (i : Nat),
      ks.Pairwise (fun a b => a ≠ b) →
      (∀ j (hj : j < ks.length), j < i → r.hasKey (ks.get ⟨j, hj⟩) = true) →
      (∀ hi : i < ks.length, r.hasKey (ks.get ⟨i, hi⟩) = false) →
      i < ks.length →
      (deleteKeysUntilMissing r ks).2 = false
      ∧ (∀ j (hj : j < ks.length),
          (deleteKeysUntilMissing r ks).1.hasKey (ks.get ⟨j, hj⟩)
            = if j < i then false else r.hasKey (ks.get ⟨j, hj⟩))
      ∧ (∀ q, q ∉ ks → (deleteKeysUntilMissing r ks).1.hasKey q = r.hasKey q) := by
  intro ks
  induction ks with
  | nil =>
    intro r i _ _ _ hi
    exact absurd hi (by simp)
  | cons k ks ih =>
    intro r i hpw hbefore hmiss hilen
    match i with
    | 0 =>
      have hk : r.hasKey k = false := hmiss (by simp)
      have hres : deleteKeysUntilMissing r (k :: ks) = (r, false) := by
        simp [deleteKeysUntilMissing, Registry.deleteKeyEx, hk]
      refine ⟨by rw [hres], ?_, ?_⟩
      · intro j hj
        rw [hres]
        simp
      · intro q _
        rw [hres]
    | i' + 1 =>
      have hk : r.hasKey k = true := hbefore 0 (by simp) (Nat.succ_pos i')
      have hknotin : k ∉ ks := by
        intro hmem
        exact (List.pairwise_cons.mp hpw).1 k hmem rfl
      obtain ⟨r2, hr2, hk2, hr2key⟩ :
          ∃ r2, deleteKeysUntilMissing r (k :: ks) = deleteKeysUntilMissing r2 ks
            ∧ r2.hasKey k = false
            ∧ ∀ q, q ≠ k → r2.hasKey q = r.hasKey q := by
        refine ⟨⟨fun q => if q == k then false else r.hasKey q,
                 fun q n => if q == k then none else r.value q n⟩,
                by simp [deleteKeysUntilMissing, Registry.deleteKeyEx, hk], by simp, ?_⟩
        intro q hq
        simp [beq_iff_eq, hq]
      have hpw2 : ks.Pairwise (fun a b => a ≠ b) := (List.pairwise_cons.mp hpw).2
      have hbefore2 : ∀ j (hj : j < ks.length), j < i' →
          r2.hasKey (ks.get ⟨j, hj⟩) = true := by
        intro j hj hlt
        have hne : ks.get ⟨j, hj⟩ ≠ k := by
          intro he
          exact hknotin (he ▸ get_mem_of_lt ks j hj)
        rw [hr2key _ hne]
        have := hbefore (j + 1) (by simpa using Nat.succ_lt_succ hj) (Nat.succ_lt_succ hlt)
        simpa using this
      have hmiss2 : ∀ hi : i' < ks.length, r2.hasKey (ks.get ⟨i', hi⟩) = false := by
        intro hi
        have hne : ks.get ⟨i', hi⟩ ≠ k := by
          intro he
          exact hknotin (he ▸ get_mem_of_lt ks i' hi)
        rw [hr2key _ hne]
        have := hmiss (by simpa using Nat.succ_lt_succ hi)
        simpa using this
      have hi2 : i' < ks.length := Nat.lt_of_succ_lt_succ hilen
      obtain ⟨ihA, ihB, ihC⟩ := ih r2 i' hpw2 hbefore2 hmiss2 hi2
      refine ⟨by rw [hr2]; exact ihA, ?_, ?_⟩
      · intro j hj
        rw [hr2]
        cases j with
        | zero =>
          simp only [List.get]
          rw [ihC k hknotin, hk2]
          simp
        | succ j2 =>
          have hj2 : j2 < ks.length := Nat.lt_of_succ_lt_succ (by simpa using hj)
          have hne : ks.get ⟨j2, hj2⟩ ≠ k := by
            intro he
            exact hknotin (he ▸ get_mem_of_lt ks j2 hj2)
          simp only [List.get]
          rw [ihB j2 hj2, hr2key _ hne]
          by_cases hlt : j2 < i'
          · simp [hlt, Nat.succ_lt_succ hlt]
          · have hge : ¬ (j2 + 1 < i' + 1) := by omega
            simp [hlt, hge]
      · intro q hq
        rw [hr2]
        have hqk : q ≠ k := by
          intro he
          exact hq (he ▸ List.mem_cons_self k ks)
        have hqks : q ∉ ks := fun hm => hq (List.mem_cons_of_mem k hm)
        rw [ihC q hqks, hr2key _ hqk]

/-- C9: in `unregister_windows_protocol_handler`, when the key at position
`i` of the fixed leaf-to-root deletion sequence is missing while all keys
before it exist (and some later key still exists), the first missing key
aborts the remaining deletions: keys before `i` end up deleted, keys from
`i` on keep their prior presence, and the operation still reports the
informational "not found (already removed)" outcome without raising — so
that report does not imply that no mutation occurred. -/
theorem unregister_windows_partial_subtree :
    ∀ (r : Registry) (i : Fin win_delete_sequence.length),
      (∀ j : Fin win_delete_sequence.length, j.val < i.val →
        r.hasKey (win_delete_sequence.get j) = true) →
      r.hasKey (win_delete_sequence.get i) = false →
      (∃ j : Fin win_delete_sequence.length, i.val < j.val ∧
        r.hasKey (win_delete_sequence.get j) = true) →
      (unregister_windows_protocol_handler r).2 = UnregisterOutcome.notFound
      ∧ ∀ j : Fin win_delete_sequence.length,
          (unregister_windows_protocol_handler r).1.hasKey (win_delete_sequence.get j)
            = if j.val < i.val then false else r.hasKey (win_delete_sequence.get j) := by
  intro r i hbefore hmiss _hlater
  have hpw : win_delete_sequence.Pairwise (fun a b => a ≠ b) := by decide
  obtain ⟨hA, hB, _⟩ := deleteKeysUntilMissing_first_missing win_delete_sequence r i.val hpw
      (fun j hj hlt => hbefore ⟨j, hj⟩ hlt) (fun _ => hmiss) i.isLt
  constructor
  · simp [unregister_windows_protocol_handler, hA]
  · intro j
    have := hB j.val j.isLt
    simpa [unregister_windows_protocol_handler] using this

/-- C9 witness: only the root `SOFTWARE\Classes\ida` key exists; the very
first deletion (`...\shell\open\command`) hits the missing key, the root
key survives, and the operation reports "not found". -/
theorem unregister_windows_partial_subtree_witness :
    (unregister_windows_protocol_handler
        ⟨fun q => q == "SOFTWARE\\Classes\\ida", fun _ _ => none⟩).2
      = UnregisterOutcome.notFound
    ∧ (unregister_windows_protocol_handler
        ⟨fun q => q == "SOFTWARE\\Classes\\ida", fun _ _ => none⟩).1.hasKey
        "SOFTWARE\\Classes\\ida" = true := by
  have h := unregister_windows_partial_subtree
      ⟨fun q => q == "SOFTWARE\\Classes\\ida", fun _ _ => none⟩ ⟨0, by decide⟩
      (fun j hj => absurd hj (Nat.not_lt_zero _))
      (by decide)
      ⟨⟨4, by decide⟩, by decide, by decide⟩
  refine ⟨h.1, ?_⟩
  have h4 := h.2 ⟨4, by decide⟩
  have hkey : win_delete_sequence.get ⟨4, by decide⟩ = "SOFTWARE\\Classes\\ida" := by decide
  rw [hkey] at h4
  rw [h4]
  decide

/-- Auxiliary: steps 3 and 4 of the injected script together equal the
spec's candidate chain (c) then (d). -/
theorem find_python_which_fallback_eq_or (env : PyProbeEnv) :
    find_python_which_fallback env = (spec_candidate_c env).or (spec_candidate_d env) := by
  simp only [find_python_which_fallback, spec_candidate_c, spec_candidate_d]
  by_cases h3 : (truthyStr (env.which "python3")
      && !(is_windows_store_shim (env.which "python3"))) = true
  · rw [if_pos h3, if_pos h3]
    cases hw : env.which "python3" with
    | none => rw [hw] at h3; simp [truthyStr] at h3
    | some x => rfl
  · rw [if_neg h3, if_neg h3]
    by_cases h1 : (truthyStr (env.which "python")
        && !(is_windows_store_shim (env.which "python"))) = true
    · rw [if_pos h1, if_pos h1]
      cases hw : env.which "python" with
      | none => rw [hw] at h1; simp [truthyStr] at h1
      | some x => rfl
    · rw [if_neg h1, if_neg h1]
      rfl

/-- C7: `find_python_executable` of the injected discovery script tries
the four spec candidates in exactly the stated order, returning the first
success: (a) the interpreter's reported executable when python-named and
not a Store shim, (b) the existing prefix-built path when not a shim,
(c) the first non-shim `which` result for `python3`/`python`, and (d) the
first `which` result even if it is a shim. -/
theorem find_python_executable_candidate_order :
    ∀ env : PyProbeEnv,
      find_python_executable env
        = (spec_candidate_a env).or
            ((spec_candidate_b env).or ((spec_candidate_c env).or (spec_candidate_d env))) := by
  intro env
  rw [← find_python_which_fallback_eq_or]
  simp only [find_python_executable]
  by_cases h1 : (truthyStr env.sys_executable
      && strContains (strLower (path_basename (env.sys_executable.getD ""))) "python"
      && !(is_windows_store_shim env.sys_executable)) = true
  · rw [if_pos h1]
    cases he : env.sys_executable with
    | none => rw [he] at h1; simp [truthyStr] at h1
    | some e =>
      have ha : spec_candidate_a env = some e := by
        rw [he] at h1
        have hcond : (!(e == "") && strContains (strLower (path_basename e)) "python"
            && !(is_windows_store_shim (some e))) = true := h1
        simp only [spec_candidate_a, he]
        rw [if_pos hcond]
      rw [ha]
      rfl
  · rw [if_neg h1]
    have ha : spec_candidate_a env = none := by
      cases he : env.sys_executable with
      | none => simp [spec_candidate_a, he]
      | some e =>
        rw [he] at h1
        have hcond : ¬ ((!(e == "") && strContains (strLower (path_basename e)) "python"
            && !(is_windows_store_shim (some e))) = true) := h1
        simp only [spec_candidate_a, he]
        rw [if_neg hcond]
    rw [ha]
    cases hp : find_python_from_prefix_dir env with
    | none =>
      have hb : spec_candidate_b env = none := by
        simp only [spec_candidate_b, hp]
      rw [hb]
      rfl
    | some p =>
      by_cases hc : (!(p == "") && !(is_windows_store_shim (some p))) = true
      · have hb : spec_candidate_b env = some p := by
          simp [spec_candidate_b, hp, hc]
        rw [hb]
        simp [hc, Option.or]
      · have hb : spec_candidate_b env = none := by
          simp [spec_candidate_b, hp, hc]
        rw [hb]
        simp [hc, Option.or]
